/-
Verification of the vApp container / vApp entity resource implementations of
the terraform-provider-vsphere repository.

The Go code is shallowly embedded: remote API calls (finder lookups, property
retrieval, destroy tasks) are passed in as explicit results or resolver
functions, Go errors become an explicit `GoError` value, and Go runtime panics
(nil-pointer dereference, slice index out of range) become the `panic`
constructor of `GoResult`.  Go pointer fields that a handler dereferences are
modelled as `Option`; `none` models a nil pointer.
-/
import Mathlib

/-- An opaque (type, value) pair identifying a remote object (vim25
`types.ManagedObjectReference`). -/
structure ManagedObjectReference where
  refType : String
  value : String
deriving DecidableEq, Repr

/-- A Go `error` value.  `isManagedObjectNotFound` models the classification
performed by `viapi.IsManagedObjectNotFoundError`; an error freshly created by
`fmt.Errorf` is never classified as managed-object-not-found. -/
structure GoError where
  isManagedObjectNotFound : Bool
  msg : String
deriving DecidableEq, Repr

/-- Outcome of a Go computation: a runtime panic, a returned `error`, or a
normal result. -/
inductive GoResult (α : Type) where
  | panic (msg : String)
  | err (e : GoError)
  | ok (val : α)
deriving DecidableEq, Repr

/-- vim25 `types.VAppEntityConfigInfo`, the per-member record of a vApp.  The
Go fields `Key`, `WaitingForGuest` and `DestroyWithParent` are pointers,
modelled as `Option`. -/
structure VAppEntityConfigInfo where
  key : Option ManagedObjectReference
  startOrder : Int
  startAction : String
  startDelay : Int
  stopAction : String
  stopDelay : Int
  waitingForGuest : Option Bool
  destroyWithParent : Option Bool
deriving DecidableEq, Repr

/-- The `VAppConfig` portion of a vApp's managed object. -/
structure VAppConfigInfo where
  entityConfig : List VAppEntityConfigInfo
deriving DecidableEq, Repr

/-- vim25 `types.VAppConfigSpec` as used by the handlers: only the
`EntityConfig` list is ever populated. -/
structure VAppConfigSpec where
  entityConfig : List VAppEntityConfigInfo
deriving DecidableEq, Repr

/-- The higher-level `object.VirtualApp` handle: all the handlers use of it is
its managed object reference. -/
structure VirtualApp where
  ref : ManagedObjectReference
deriving DecidableEq, Repr

/-- The fields of the `mo.VirtualApp` managed object that the code under
review reads: the vApp configuration, the member virtual machines and the
child resource pools (`ResourcePool.ResourcePool` in Go). -/
structure VirtualAppMo where
  vAppConfig : VAppConfigInfo
  vm : List ManagedObjectReference
  childResourcePools : List ManagedObjectReference
deriving DecidableEq, Repr

/-- Go's `int32(x)` conversion from a wider integer: two's-complement
truncation to 32 bits. -/
def goInt32 (n : Int) : Int :=
  (n + 2 ^ 31) % 2 ^ 32 - 2 ^ 31

/-- Go's `fmt` `%q` verb on the paths appearing in the handlers' error
messages (no escaping is needed for inventory paths). -/
def goQuote (s : String) : String :=
  "\"" ++ s ++ "\""

namespace vappcontainer

/-- `vappcontainer.EntityFromKey`, inner loop: scan the entity-config list for
the first element whose `Key.Value` equals the given key, returning a pointer
to it, or nil when no element matches.  `Key` is a pointer in Go, so the
dereference `e.Key.Value` on a nil key is a runtime panic. -/
def entityFromKeyList (key : String) : List VAppEntityConfigInfo → GoResult (Option VAppEntityConfigInfo)
  | [] => .ok none
  | e :: rest =>
    match e.key with
    | none => .panic "runtime error: invalid memory address or nil pointer dereference"
    | some r => if r.value = key then .ok (some e) else entityFromKeyList key rest

/-- `vappcontainer.EntityFromKey`: locate a `VAppEntityConfigInfo` within a
vApp container's properties by the string value of its key. -/
def EntityFromKey (key : String) (c : VirtualAppMo) : GoResult (Option VAppEntityConfigInfo) :=
  entityFromKeyList key c.vAppConfig.entityConfig

/-- The managed object reference that `vappcontainer.FromID` constructs for a
given ID: `Type` is the literal `"VirtualApp"`, `Value` is the ID itself. -/
def vappRefFor (id : String) : ManagedObjectReference :=
  { refType := "VirtualApp", value := id }

/-- `vappcontainer.FromID`: build the reference for the ID, hand it to the
inventory finder (`finder.ObjectReference`), return the finder's error
unchanged on failure and the located `VirtualApp` on success. -/
def FromID (finder : ManagedObjectReference → GoResult VirtualApp) (id : String) : GoResult VirtualApp :=
  match finder (vappRefFor id) with
  | .panic m => .panic m
  | .err e => .err e
  | .ok obj => .ok obj

/-- `vappcontainer.HasChildren`: true when the vApp has at least one member
virtual machine or at least one child resource pool; an error from the
property retrieval is returned unchanged. -/
def HasChildren (propsRes : GoResult VirtualAppMo) : GoResult Bool :=
  match propsRes with
  | .panic m => .panic m
  | .err e => .err e
  | .ok p => .ok (decide (p.vm.length > 0) || decide (p.childResourcePools.length > 0))

/-- A vSphere task handle, as returned by `Destroy`. -/
structure GoTask where
  taskRef : String
deriving DecidableEq, Repr

/-- `vappcontainer.Delete`: start the destroy task and wait for it; either
step's error is returned unchanged. -/
def Delete (destroyRes : GoResult GoTask) (wait : GoTask → GoResult Unit) : GoResult Unit :=
  match destroyRes with
  | .panic m => .panic m
  | .err e => .err e
  | .ok t => wait t

end vappcontainer

/-! ## Go string splitting

`strings.SplitN(s, sep, 2)` and `strings.Split(s, sep)` for the
single-character separators used by the handlers. -/

/-- Split a character list at the first occurrence of `sep`; `none` when `sep`
does not occur. -/
def splitOnce (sep : Char) : List Char → Option (List Char × List Char)
  | [] => none
  | c :: cs =>
    if c = sep then some ([], cs)
    else
      match splitOnce sep cs with
      | none => none
      | some (l, r) => some (c :: l, r)

/-- Go `strings.SplitN(s, sep, 2)` for a single-character separator: the whole
string as a one-element slice when the separator does not occur, otherwise the
part before the first occurrence and the remainder after it. -/
def goSplitN2 (s : String) (sep : Char) : List String :=
  match splitOnce sep s.data with
  | none => [s]
  | some (l, r) => [⟨l⟩, ⟨r⟩]

/-- Split a character list at every occurrence of `sep`; always non-empty. -/
def splitAll (sep : Char) : List Char → List (List Char)
  | [] => [[]]
  | c :: cs =>
    if c = sep then [] :: splitAll sep cs
    else
      match splitAll sep cs with
      | [] => [[c]]
      | p :: ps => (c :: p) :: ps

/-- Go `strings.Split(s, sep)` for a single-character separator. -/
def goSplit (s : String) (sep : Char) : List String :=
  (splitAll sep s.data).map fun l => ⟨l⟩

/-! ## vsphere_vapp_entity handlers (final revision of
`resource_vsphere_vapp_entity.go`) -/

/-- The flat configuration of a `vsphere_vapp_entity` resource, as read from
`d.Get` with the schema's types and defaults already applied. -/
structure EntityResourceData where
  targetId : String
  containerId : String
  startAction : String
  startDelay : Int
  stopAction : String
  stopDelay : Int
  startOrder : Int
  waitForGuest : Bool
deriving DecidableEq, Repr

/-- The per-member record built by the final revision of
`resourceVSphereVAppEntityCreate`: `Key` is the target virtual machine's
managed-entity reference, and each remaining field is taken from its
corresponding flat configuration key (`start_order`, `start_action`,
`start_delay`, `stop_action`, `stop_delay`, `wait_for_guest`). -/
def entityCreateConfigFinal (d : EntityResourceData) (mor : ManagedObjectReference) : VAppEntityConfigInfo :=
  { key := some mor
    startOrder := goInt32 d.startOrder
    startAction := d.startAction
    startDelay := goInt32 d.startDelay
    stopAction := d.stopAction
    stopDelay := goInt32 d.stopDelay
    waitingForGuest := some d.waitForGuest
    destroyWithParent := none }

/-- The per-member record built by the intermediate revision of
`resourceVSphereVAppEntityCreate` (the middle document of the source file):
that revision reads `start_action` into `StopAction` and `start_delay` into
`StopDelay`, and sets no `Key`. -/
def entityCreateConfigMid (d : EntityResourceData) : VAppEntityConfigInfo :=
  { key := none
    startOrder := goInt32 d.startOrder
    startAction := d.startAction
    startDelay := goInt32 d.startDelay
    stopAction := d.startAction
    stopDelay := goInt32 d.startDelay
    waitingForGuest := some d.waitForGuest
    destroyWithParent := none }

/-- The update spec sent by the final revision of
`resourceVSphereVAppEntityCreate`: the freshly built record appended to the
container's existing `EntityConfig` list. -/
def entityCreateUpdateSpecFinal (mo : VirtualAppMo) (d : EntityResourceData)
    (mor : ManagedObjectReference) : VAppConfigSpec :=
  { entityConfig := mo.vAppConfig.entityConfig ++ [entityCreateConfigFinal d mor] }

/-- The update spec sent by the intermediate revision of
`resourceVSphereVAppEntityCreate`. -/
def entityCreateUpdateSpecMid (mo : VirtualAppMo) (d : EntityResourceData) : VAppConfigSpec :=
  { entityConfig := mo.vAppConfig.entityConfig ++ [entityCreateConfigMid d] }

/-- The filtering loop of `resourceVSphereVAppEntityDelete`: iterate over the
container's entity-config list and keep every record whose dereferenced `Key`
differs from the target virtual machine's reference.  Dereferencing a nil
`Key` (`*e.Key`) is a runtime panic. -/
def entityDeleteFilter (vmo : ManagedObjectReference) :
    List VAppEntityConfigInfo → GoResult (List VAppEntityConfigInfo)
  | [] => .ok []
  | e :: rest =>
    match e.key with
    | none => .panic "runtime error: invalid memory address or nil pointer dereference"
    | some r =>
      match entityDeleteFilter vmo rest with
      | .panic m => .panic m
      | .err er => .err er
      | .ok el => .ok (if r = vmo then el else e :: el)

/-- The update spec sent by `resourceVSphereVAppEntityDelete` for a container
with properties `vcp` and target virtual machine reference `vmo`. -/
def entityDeleteUpdateSpec (vcp : VirtualAppMo) (vmo : ManagedObjectReference) :
    GoResult VAppConfigSpec :=
  match entityDeleteFilter vmo vcp.vAppConfig.entityConfig with
  | .panic m => .panic m
  | .err er => .err er
  | .ok el => .ok { entityConfig := el }

/-- The ID decomposition at the top of `resourceVSphereVAppEntityFind`:
`parts := strings.SplitN(d.Id(), ":", 2); cid := parts[0]; eid := parts[1]`.
When the ID contains no `:` the split yields a single part and the access
`parts[1]` is a runtime index-out-of-range panic. -/
def entityFindSplitID (id : String) : GoResult (String × String) :=
  let parts := goSplitN2 id ':'
  match parts.get? 0, parts.get? 1 with
  | some cid, some eid => .ok (cid, eid)
  | _, _ => .panic "runtime error: index out of range [1] with length 1"

/-- The lookup pipeline of `resourceVSphereVAppEntityFind` after the ID has
been decomposed: locate the container by `cid`, fetch its properties, and
scan the entity-config list for `eid`. -/
def entityLookup (fromIDf : String → GoResult VirtualApp)
    (propsOf : VirtualApp → GoResult VirtualAppMo) (cid eid : String) :
    GoResult (Option VAppEntityConfigInfo) :=
  match fromIDf cid with
  | .panic m => .panic m
  | .err e => .err e
  | .ok container =>
    match propsOf container with
    | .panic m => .panic m
    | .err e => .err e
    | .ok props => vappcontainer.EntityFromKey eid props

/-- `resourceVSphereVAppEntityFind`: split the resource ID on the first `:`
into container ID and entity key, then run the lookup pipeline. -/
def resourceVSphereVAppEntityFind (fromIDf : String → GoResult VirtualApp)
    (propsOf : VirtualApp → GoResult VirtualAppMo) (id : String) :
    GoResult (Option VAppEntityConfigInfo) :=
  match entityFindSplitID id with
  | .panic m => .panic m
  | .err e => .err e
  | .ok (cid, eid) => entityLookup fromIDf propsOf cid eid

/-! ## vsphere_vapp_container handlers -/

/-- Error-message prefix used by `resourceVSphereVAppContainerValidateEmpty`
when the `HasChildren` check itself fails
(`fmt.Errorf("error checking contents of resource pool: %s", err)`). -/
def validateEmptyWrapMsg (msg : String) : String :=
  "error checking contents of resource pool: " ++ msg

/-- Error message returned by `resourceVSphereVAppContainerValidateEmpty` for
a non-empty container. -/
def validateEmptyChildrenMsg (inventoryPath : String) : String :=
  "resource pool " ++ goQuote inventoryPath ++
    " still has children resources. Please move or remove all items before deleting"

/-- `resourceVSphereVAppContainerValidateEmpty`: run `HasChildren`; wrap its
error in a fresh `fmt.Errorf` message, reject a container that still has
children, and accept an empty one. -/
def resourceVSphereVAppContainerValidateEmpty (hasChildrenRes : GoResult Bool)
    (inventoryPath : String) : GoResult Unit :=
  match hasChildrenRes with
  | .panic m => .panic m
  | .err e => .err { isManagedObjectNotFound := false, msg := validateEmptyWrapMsg e.msg }
  | .ok true => .err { isManagedObjectNotFound := false, msg := validateEmptyChildrenMsg inventoryPath }
  | .ok false => .ok ()

/-- The outcome of `resourceVSphereVAppContainerDelete` together with whether
the destroy call (`vappcontainer.Delete`) was reached. -/
structure DeleteTrace where
  result : GoResult Unit
  destroyCalled : Bool
deriving DecidableEq, Repr

/-- `resourceVSphereVAppContainerDelete` after the container has been located:
validate that it is empty and only then invoke the destroy call, whose
outcome `destroyRes` is returned unchanged. -/
def resourceVSphereVAppContainerDelete (propsRes : GoResult VirtualAppMo)
    (inventoryPath : String) (destroyRes : GoResult Unit) : DeleteTrace :=
  match resourceVSphereVAppContainerValidateEmpty (vappcontainer.HasChildren propsRes) inventoryPath with
  | .panic m => { result := .panic m, destroyCalled := false }
  | .err e => { result := .err e, destroyCalled := false }
  | .ok _ => { result := destroyRes, destroyCalled := true }

/-- The `vappcontainer.FromID` step at the top of
`resourceVSphereVAppContainerRead`: a managed-object-not-found error clears
the resource ID and ends the read with nil (`ok none`); any other error is
returned unchanged; on success the read proceeds with the container. -/
def resourceVSphereVAppContainerReadStep (fromIDRes : GoResult VirtualApp) :
    GoResult (Option VirtualApp) :=
  match fromIDRes with
  | .panic m => .panic m
  | .err e => if e.isManagedObjectNotFound then .ok none else .err e
  | .ok va => .ok (some va)

/-- The datacenter-name derivation in `resourceVSphereVAppContainerCreate`
when no parent folder is configured:
`strings.Split(prp.InventoryPath, "/")[1]`.  Indexing `[1]` panics when the
path contains no `/`. -/
def containerCreateDcName (inventoryPath : String) : GoResult String :=
  match (goSplit inventoryPath '/').get? 1 with
  | some dc => .ok dc
  | none => .panic "runtime error: index out of range [1] with length 1"

/-! ## Flattening the remote resource configuration (Read path) -/

/-- A value written into the flat Terraform state. -/
inductive AttrVal where
  | int (i : Int)
  | bool (b : Bool)
  | str (s : String)
deriving DecidableEq, Repr

/-- The flat Terraform state, as a partial map from schema keys to values. -/
def AttrMap : Type := String → Option AttrVal

/-- `d.Set(k, v)`. -/
def setAttr (d : AttrMap) (k : String) (v : AttrVal) : AttrMap :=
  fun k' => if k' = k then some v else d k'

/-- `structure.SetBatch`: set every key of the batch. -/
def setBatch (d : AttrMap) (kvs : List (String × AttrVal)) : AttrMap :=
  kvs.foldl (fun acc kv => setAttr acc kv.1 kv.2) d

/-- vim25 `types.SharesInfo`. -/
structure SharesInfo where
  shares : Int
  level : String
deriving DecidableEq, Repr

/-- vim25 `types.ResourceAllocationInfo`, the fields the flatten functions
read. -/
structure ResourceAllocationInfo where
  reservation : Int
  expandableReservation : Bool
  limit : Int
  shares : SharesInfo
deriving DecidableEq, Repr

/-- vim25 `types.ResourceConfigSpec`. -/
structure ResourceConfigSpec where
  cpuAllocation : ResourceAllocationInfo
  memoryAllocation : ResourceAllocationInfo
deriving DecidableEq, Repr

/-- The batch written by `flattenVAppContainerCPUAllocation`. -/
def flattenVAppContainerCPUAllocation (obj : ResourceAllocationInfo) : List (String × AttrVal) :=
  [("cpu_reservation", .int obj.reservation),
   ("cpu_expandable", .bool obj.expandableReservation),
   ("cpu_limit", .int obj.limit),
   ("cpu_shares", .int obj.shares.shares),
   ("cpu_share_level", .str obj.shares.level)]

/-- The batch written by `flattenVAppContainerMemoryAllocation`. -/
def flattenVAppContainerMemoryAllocation (obj : ResourceAllocationInfo) : List (String × AttrVal) :=
  [("memory_reservation", .int obj.reservation),
   ("memory_expandable", .bool obj.expandableReservation),
   ("memory_limit", .int obj.limit),
   ("memory_shares", .int obj.shares.shares),
   ("memory_share_level", .str obj.shares.level)]

/-- `flattenVAppContainerConfigSpec`: write the memory batch, then the CPU
batch, into the flat state. -/
def flattenVAppContainerConfigSpec (d : AttrMap) (obj : ResourceConfigSpec) : AttrMap :=
  setBatch (setBatch d (flattenVAppContainerMemoryAllocation obj.memoryAllocation))
    (flattenVAppContainerCPUAllocation obj.cpuAllocation)

/-! ## Resource definitions and importers -/

/-- The handler functions of the two resource implementations. -/
inductive HandlerFun where
  | containerCreate
  | containerRead
  | containerUpdate
  | containerDelete
  | containerImport
  | entityCreate
  | entityRead
  | entityUpdate
  | entityDelete
  | entityImport
deriving DecidableEq, Repr

/-- The Create/Read/Update/Delete/Importer bindings of a
`schema.Resource` record. -/
structure ResourceDefn where
  create : HandlerFun
  read : HandlerFun
  update : HandlerFun
  delete : HandlerFun
  importer : HandlerFun
deriving DecidableEq, Repr

/-- The bindings of the `schema.Resource` returned by
`resourceVSphereVAppContainer`. -/
def resourceVSphereVAppContainerDefn : ResourceDefn :=
  { create := .containerCreate
    read := .containerRead
    update := .containerUpdate
    delete := .containerDelete
    importer := .containerImport }

/-- The bindings of the `schema.Resource` returned by
`resourceVSphereVAppEntity` (final revision). -/
def resourceVSphereVAppEntityDefn : ResourceDefn :=
  { create := .entityCreate
    read := .entityRead
    update := .entityUpdate
    delete := .entityDelete
    importer := .entityImport }

/-- `resourceVSphereVAppContainerImport`: resolve the vApp by the supplied
path, propagate the resolver's error, and on success return the single
resource datum whose ID has been set to the found reference's value. -/
def resourceVSphereVAppContainerImport (fromPath : String → GoResult VirtualApp)
    (id : String) : GoResult (List String) :=
  match fromPath id with
  | .panic m => .panic m
  | .err e => .err e
  | .ok va => .ok [va.ref.value]

/-- `resourceVSphereVAppEntityImport` (final revision): the body is
`return nil, nil` — no lookup is performed and no resource data is
returned, for every input. -/
def resourceVSphereVAppEntityImport (_fromPath : String → GoResult VirtualApp)
    (_id : String) : GoResult (List String) :=
  .ok []

/-! ## Concrete sample data for evaluations -/

/-- A sample member record keyed by virtual machine `vm-1`. -/
def sampleEc1 : VAppEntityConfigInfo :=
  { key := some { refType := "VirtualMachine", value := "vm-1" }
    startOrder := 1, startAction := "powerOn", startDelay := 0
    stopAction := "powerOff", stopDelay := 0
    waitingForGuest := some false, destroyWithParent := none }

/-- A sample member record keyed by virtual machine `vm-2`. -/
def sampleEc2 : VAppEntityConfigInfo :=
  { key := some { refType := "VirtualMachine", value := "vm-2" }
    startOrder := 2, startAction := "powerOn", startDelay := 3
    stopAction := "guestShutdown", stopDelay := 4
    waitingForGuest := some true, destroyWithParent := none }

/-- A sample vApp managed object with two member records and two member
virtual machines. -/
def sampleMo : VirtualAppMo :=
  { vAppConfig := { entityConfig := [sampleEc1, sampleEc2] }
    vm := [{ refType := "VirtualMachine", value := "vm-1" },
           { refType := "VirtualMachine", value := "vm-2" }]
    childResourcePools := [] }

/-- The reference of a sample target virtual machine. -/
def sampleVmMor : ManagedObjectReference :=
  { refType := "VirtualMachine", value := "vm-9" }

/-- A flat entity configuration whose stop settings differ from its start
settings. -/
def c1FailingConfig : EntityResourceData :=
  { targetId := "vm-9", containerId := "va-1"
    startAction := "powerOn", startDelay := 5
    stopAction := "powerOff", stopDelay := 10
    startOrder := 1, waitForGuest := false }

/-- A sample container resolver that succeeds on every ID. -/
def sampleFromIDf : String → GoResult VirtualApp :=
  fun cid => .ok { ref := { refType := "VirtualApp", value := cid } }

/-- A sample property retrieval that returns `sampleMo`. -/
def samplePropsOf : VirtualApp → GoResult VirtualAppMo :=
  fun _ => .ok sampleMo

/-- A sample located vApp with reference value `va-7`. -/
def sampleVa7 : VirtualApp :=
  { ref := { refType := "VirtualApp", value := "va-7" } }

/-- The error produced by a failing `HasChildren` call in the sample run. -/
def c3BoomErr : GoError :=
  { isManagedObjectNotFound := false, msg := "boom" }

/-- The match performed by `EntityFromKey`'s loop on a record whose key
pointer is set: `e.Key.Value == key`. -/
def keyMatches (key : String) (e : VAppEntityConfigInfo) : Bool :=
  match e.key with
  | some r => r.value == key
  | none => false

/-! ## Helper lemmas -/

theorem entityFromKeyList_eq_find (k : String) (l : List VAppEntityConfigInfo)
    (h : ∀ e ∈ l, e.key.isSome) :
    vappcontainer.entityFromKeyList k l = .ok (l.find? (keyMatches k)) := by
  induction l with
  | nil => rfl
  | cons e rest ih =>
    obtain ⟨r, hr⟩ := Option.isSome_iff_exists.mp (h e (List.mem_cons_self e rest))
    have ih' := ih fun x hx => h x (List.mem_cons_of_mem e hx)
    by_cases hv : r.value = k
    · simp [vappcontainer.entityFromKeyList, hr, List.find?, keyMatches, hv]
    · have hb : (r.value == k) = false := beq_eq_false_iff_ne.mpr hv
      simp [vappcontainer.entityFromKeyList, hr, List.find?, keyMatches, hv, hb, ih']

theorem entityDeleteFilter_eq_filter (vmo : ManagedObjectReference)
    (l : List VAppEntityConfigInfo) (h : ∀ e ∈ l, e.key.isSome) :
    entityDeleteFilter vmo l = .ok (l.filter fun e => decide (e.key ≠ some vmo)) := by
  induction l with
  | nil => rfl
  | cons e rest ih =>
    obtain ⟨r, hr⟩ := Option.isSome_iff_exists.mp (h e (List.mem_cons_self e rest))
    have ih' := ih fun x hx => h x (List.mem_cons_of_mem e hx)
    by_cases hv : r = vmo
    · simp [entityDeleteFilter, hr, ih', List.filter_cons, hv]
    · simp [entityDeleteFilter, hr, ih', List.filter_cons, hv]

theorem splitOnce_eq_none (sep : Char) (l : List Char) (h : sep ∉ l) :
    splitOnce sep l = none := by
  induction l with
  | nil => rfl
  | cons c cs ih =>
    have hc : ¬ c = sep := fun hcs => h (hcs ▸ List.mem_cons_self c cs)
    have ih' := ih fun hm => h (List.mem_cons_of_mem c hm)
    simp [splitOnce, hc, ih']

theorem splitOnce_append (sep : Char) (l r : List Char) (h : sep ∉ l) :
    splitOnce sep (l ++ sep :: r) = some (l, r) := by
  induction l with
  | nil => simp [splitOnce]
  | cons c cs ih =>
    have hc : ¬ c = sep := fun hcs => h (hcs ▸ List.mem_cons_self c cs)
    have ih' := ih fun hm => h (List.mem_cons_of_mem c hm)
    simp [splitOnce, hc, ih']

theorem splitAll_append (sep : Char) (l r : List Char) (h : sep ∉ l) :
    splitAll sep (l ++ sep :: r) = l :: splitAll sep r := by
  induction l with
  | nil => simp [splitAll]
  | cons c cs ih =>
    have hc : ¬ c = sep := fun hcs => h (hcs ▸ List.mem_cons_self c cs)
    have ih' := ih fun hm => h (List.mem_cons_of_mem c hm)
    simp [splitAll, hc, ih']

/-! ## Claim theorems -/

/-- C1: at a configuration whose stop settings differ from its start settings,
the intermediate revision of `resourceVSphereVAppEntityCreate` builds a record
whose `StopAction` and `StopDelay` carry the `start_action` and `start_delay`
values instead of `stop_action` and `stop_delay`; the final revision maps the
fields as the claim states and appends the record to the container's existing
`EntityConfig` list as the update spec. -/
theorem entityCreate_stop_fields_divergence :
    (entityCreateConfigMid c1FailingConfig).stopAction = "powerOn" ∧
    (entityCreateConfigMid c1FailingConfig).stopDelay = 5 ∧
    c1FailingConfig.stopAction = "powerOff" ∧
    c1FailingConfig.stopDelay = 10 ∧
    entityCreateUpdateSpecMid sampleMo c1FailingConfig =
      { entityConfig := [sampleEc1, sampleEc2, entityCreateConfigMid c1FailingConfig] } ∧
    (entityCreateConfigFinal c1FailingConfig sampleVmMor).key = some sampleVmMor ∧
    (entityCreateConfigFinal c1FailingConfig sampleVmMor).startOrder = 1 ∧
    (entityCreateConfigFinal c1FailingConfig sampleVmMor).startAction = "powerOn" ∧
    (entityCreateConfigFinal c1FailingConfig sampleVmMor).startDelay = 5 ∧
    (entityCreateConfigFinal c1FailingConfig sampleVmMor).stopAction = "powerOff" ∧
    (entityCreateConfigFinal c1FailingConfig sampleVmMor).stopDelay = 10 ∧
    (entityCreateConfigFinal c1FailingConfig sampleVmMor).waitingForGuest = some false ∧
    entityCreateUpdateSpecFinal sampleMo c1FailingConfig sampleVmMor =
      { entityConfig := [sampleEc1, sampleEc2, entityCreateConfigFinal c1FailingConfig sampleVmMor] } := by
  decide

/-- C2: `EntityFromKey` returns the first element of the container's
`EntityConfig` list whose key value equals the given key, and nil (`none`)
when no element matches, provided every record's key pointer is set (a nil
key would make the Go dereference panic before the scan completes). -/
theorem EntityFromKey_first_match (k : String) (c : VirtualAppMo)
    (h : ∀ e ∈ c.vAppConfig.entityConfig, e.key.isSome) :
    vappcontainer.EntityFromKey k c = .ok (c.vAppConfig.entityConfig.find? (keyMatches k)) :=
  entityFromKeyList_eq_find k c.vAppConfig.entityConfig h

theorem EntityFromKey_first_match_witness :
    (∀ e ∈ sampleMo.vAppConfig.entityConfig, e.key.isSome) ∧
    vappcontainer.EntityFromKey "vm-2" sampleMo =
      .ok (sampleMo.vAppConfig.entityConfig.find? (keyMatches "vm-2")) :=
  ⟨by decide, EntityFromKey_first_match "vm-2" sampleMo (by decide)⟩

/-- C3 counterexample: `resourceVSphereVAppContainerValidateEmpty` does not
return the failing `HasChildren` error to its caller unchanged — it wraps the
message in a fresh error. -/
theorem validateEmpty_wraps_error :
    resourceVSphereVAppContainerValidateEmpty (.err c3BoomErr) "/dc1/vm/va" ≠
      .err c3BoomErr ∧
    resourceVSphereVAppContainerValidateEmpty (.err c3BoomErr) "/dc1/vm/va" =
      .err { isManagedObjectNotFound := false
             msg := "error checking contents of resource pool: boom" } := by
  decide

/-- C3 amended: the helper-package operations return underlying errors
unchanged, but `resourceVSphereVAppContainerValidateEmpty` wraps the
`HasChildren` error in a new message, and the Read path's `FromID` step
recovers from managed-object-not-found errors by clearing the resource ID and
returning nil instead of the error. -/
theorem error_handling_amended (e : GoError) (p : String) (id : String)
    (w : vappcontainer.GoTask → GoResult Unit) :
    vappcontainer.Delete (.err e) w = .err e ∧
    vappcontainer.HasChildren (.err e) = .err e ∧
    vappcontainer.FromID (fun _ => .err e) id = .err e ∧
    resourceVSphereVAppContainerValidateEmpty (.err e) p =
      .err { isManagedObjectNotFound := false, msg := validateEmptyWrapMsg e.msg } ∧
    resourceVSphereVAppContainerReadStep (.err e) =
      (if e.isManagedObjectNotFound then .ok none else .err e) := by
  exact ⟨rfl, rfl, rfl, rfl, rfl⟩

/-- C4: a vApp container that still has a member virtual machine or a child
resource pool makes `resourceVSphereVAppContainerDelete` fail the
emptiness validation and return its error without reaching the destroy call;
and whenever the destroy call is reached, `HasChildren` reported false. -/
theorem containerDelete_blocked_when_children (p : VirtualAppMo) (path : String)
    (dr : GoResult Unit) (h : p.vm ≠ [] ∨ p.childResourcePools ≠ []) :
    resourceVSphereVAppContainerDelete (.ok p) path dr =
      { result := .err { isManagedObjectNotFound := false
                         msg := validateEmptyChildrenMsg path }
        destroyCalled := false } ∧
    ∀ (q : VirtualAppMo) (dr2 : GoResult Unit),
      (resourceVSphereVAppContainerDelete (.ok q) path dr2).destroyCalled = true →
        vappcontainer.HasChildren (.ok q) = .ok false := by
  constructor
  · have hb : (decide (p.vm.length > 0) || decide (p.childResourcePools.length > 0)) = true := by
      rcases h with h | h
      · simp [List.length_pos.mpr h]
      · simp [List.length_pos.mpr h]
    simp [resourceVSphereVAppContainerDelete, vappcontainer.HasChildren,
      resourceVSphereVAppContainerValidateEmpty, hb]
  · intro q dr2 hcall
    by_cases hb : (decide (q.vm.length > 0) || decide (q.childResourcePools.length > 0)) = true
    · exfalso
      revert hcall
      simp [resourceVSphereVAppContainerDelete, vappcontainer.HasChildren,
        resourceVSphereVAppContainerValidateEmpty, hb]
    · have hb' : (decide (q.vm.length > 0) || decide (q.childResourcePools.length > 0)) = false :=
        Bool.not_eq_true _ ▸ eq_false_of_ne_true hb
      simp [vappcontainer.HasChildren, hb']

theorem containerDelete_blocked_when_children_witness :
    (sampleMo.vm ≠ [] ∨ sampleMo.childResourcePools ≠ []) ∧
    (resourceVSphereVAppContainerDelete (.ok sampleMo) "/dc1/vm/va" (.ok ()) =
      { result := .err { isManagedObjectNotFound := false
                         msg := validateEmptyChildrenMsg "/dc1/vm/va" }
        destroyCalled := false } ∧
    ∀ (q : VirtualAppMo) (dr2 : GoResult Unit),
      (resourceVSphereVAppContainerDelete (.ok q) "/dc1/vm/va" dr2).destroyCalled = true →
        vappcontainer.HasChildren (.ok q) = .ok false) :=
  ⟨by decide, containerDelete_blocked_when_children sampleMo "/dc1/vm/va" (.ok ()) (by decide)⟩

/-- C5: the update spec sent by `resourceVSphereVAppEntityDelete` contains
exactly the container's records whose key differs from the target virtual
machine's reference, unchanged and in their original order, provided every
record's key pointer is set (the Go dereference `*e.Key` would panic on a nil
key). -/
theorem entityDelete_spec_is_filter (vcp : VirtualAppMo) (vmo : ManagedObjectReference)
    (h : ∀ e ∈ vcp.vAppConfig.entityConfig, e.key.isSome) :
    entityDeleteUpdateSpec vcp vmo =
      .ok { entityConfig :=
              vcp.vAppConfig.entityConfig.filter fun e => decide (e.key ≠ some vmo) } := by
  simp [entityDeleteUpdateSpec, entityDeleteFilter_eq_filter vmo _ h]

theorem entityDelete_spec_is_filter_witness :
    (∀ e ∈ sampleMo.vAppConfig.entityConfig, e.key.isSome) ∧
    entityDeleteUpdateSpec sampleMo { refType := "VirtualMachine", value := "vm-1" } =
      .ok { entityConfig :=
              sampleMo.vAppConfig.entityConfig.filter fun e =>
                decide (e.key ≠ some { refType := "VirtualMachine", value := "vm-1" }) } :=
  ⟨by decide,
   entityDelete_spec_is_filter sampleMo { refType := "VirtualMachine", value := "vm-1" } (by decide)⟩

/-- C6: the Read path flattens the remote `ResourceConfigSpec` field by field
into the flat schema: each `cpu_*` key is set from the corresponding field of
`CpuAllocation` and each `memory_*` key from the corresponding field of
`MemoryAllocation`. -/
theorem flatten_config_spec_fields (d : AttrMap) (obj : ResourceConfigSpec) :
    flattenVAppContainerConfigSpec d obj "cpu_reservation" =
      some (.int obj.cpuAllocation.reservation) ∧
    flattenVAppContainerConfigSpec d obj "cpu_expandable" =
      some (.bool obj.cpuAllocation.expandableReservation) ∧
    flattenVAppContainerConfigSpec d obj "cpu_limit" =
      some (.int obj.cpuAllocation.limit) ∧
    flattenVAppContainerConfigSpec d obj "cpu_shares" =
      some (.int obj.cpuAllocation.shares.shares) ∧
    flattenVAppContainerConfigSpec d obj "cpu_share_level" =
      some (.str obj.cpuAllocation.shares.level) ∧
    flattenVAppContainerConfigSpec d obj "memory_reservation" =
      some (.int obj.memoryAllocation.reservation) ∧
    flattenVAppContainerConfigSpec d obj "memory_expandable" =
      some (.bool obj.memoryAllocation.expandableReservation) ∧
    flattenVAppContainerConfigSpec d obj "memory_limit" =
      some (.int obj.memoryAllocation.limit) ∧
    flattenVAppContainerConfigSpec d obj "memory_shares" =
      some (.int obj.memoryAllocation.shares.shares) ∧
    flattenVAppContainerConfigSpec d obj "memory_share_level" =
      some (.str obj.memoryAllocation.shares.level) :=
  ⟨rfl, rfl, rfl, rfl, rfl, rfl, rfl, rfl, rfl, rfl⟩

/-- C7: `FromID` always hands the finder a managed object reference whose
`Type` is the literal `"VirtualApp"` and whose `Value` is exactly the given
ID, returning the finder's result — the located vApp on success, the finder's
error unchanged on failure. -/
theorem FromID_resolves_fixed_type_ref
    (finder : ManagedObjectReference → GoResult VirtualApp) (id : String) :
    vappcontainer.FromID finder id = finder (vappcontainer.vappRefFor id) ∧
    (vappcontainer.vappRefFor id).refType = "VirtualApp" ∧
    (vappcontainer.vappRefFor id).value = id := by
  refine ⟨?_, rfl, rfl⟩
  cases h : finder (vappcontainer.vappRefFor id) <;>
    simp [vappcontainer.FromID, h]

/-- C8: `resourceVSphereVAppEntityFind` requires the resource ID to contain a
`:`: an ID of the form `cid:eid` is decomposed into the container ID and the
entity key and fed to the lookup pipeline, while an ID without `:` makes the
access to the second component of the two-way split panic (index out of
range). -/
theorem entityFind_id_precondition (fromIDf : String → GoResult VirtualApp)
    (propsOf : VirtualApp → GoResult VirtualAppMo) (id : String) :
    (':' ∉ id.data →
      resourceVSphereVAppEntityFind fromIDf propsOf id =
        .panic "runtime error: index out of range [1] with length 1") ∧
    (∀ cid eid : String, ':' ∉ cid.data → id = cid ++ ":" ++ eid →
      resourceVSphereVAppEntityFind fromIDf propsOf id =
        entityLookup fromIDf propsOf cid eid) := by
  constructor
  · intro h
    simp [resourceVSphereVAppEntityFind, entityFindSplitID, goSplitN2,
      splitOnce_eq_none ':' id.data h]
  · intro cid eid hc hid
    subst hid
    have hdata : (cid ++ ":" ++ eid).data = cid.data ++ ':' :: eid.data := by
      simp [String.data_append]
    simp [resourceVSphereVAppEntityFind, entityFindSplitID, goSplitN2, hdata,
      splitOnce_append ':' cid.data eid.data hc]

theorem entityFind_id_precondition_witness :
    resourceVSphereVAppEntityFind sampleFromIDf samplePropsOf "va-1" =
      .panic "runtime error: index out of range [1] with length 1" ∧
    resourceVSphereVAppEntityFind sampleFromIDf samplePropsOf "va-1:vm-2" =
      entityLookup sampleFromIDf samplePropsOf "va-1" "vm-2" :=
  ⟨(entityFind_id_precondition sampleFromIDf samplePropsOf "va-1").1 (by decide),
   (entityFind_id_precondition sampleFromIDf samplePropsOf "va-1:vm-2").2
     "va-1" "vm-2" (by decide) rfl⟩

/-- C9 counterexample: parsing does occur — `resourceVSphereVAppEntityFind`
decomposes the resource ID `"va-1:vm-2"` into the components `"va-1"` and
`"vm-2"`, and `resourceVSphereVAppContainerCreate` derives the datacenter
name `"dc1"` by decomposing the inventory path. -/
theorem parsing_occurs :
    entityFindSplitID "va-1:vm-2" = .ok ("va-1", "vm-2") ∧
    containerCreateDcName "/dc1/host/cluster1/Resources" = .ok "dc1" ∧
    ("va-1" : String) ≠ "va-1:vm-2" ∧
    ("dc1" : String) ≠ "/dc1/host/cluster1/Resources" := by
  decide

/-- C9 amended: the code decomposes input strings in exactly two places — the
entity Find handler splits the resource ID at the first `:` into container ID
and entity key, and the container Create handler takes the component after
the leading `/` of the parent pool's inventory path as the datacenter
name. -/
theorem parsing_locations (cid eid dc rest : String)
    (h1 : ':' ∉ cid.data) (h2 : '/' ∉ dc.data) :
    entityFindSplitID (cid ++ ":" ++ eid) = .ok (cid, eid) ∧
    containerCreateDcName ("/" ++ dc ++ "/" ++ rest) = .ok dc := by
  constructor
  · have hdata : (cid ++ ":" ++ eid).data = cid.data ++ ':' :: eid.data := by
      simp [String.data_append]
    simp [entityFindSplitID, goSplitN2, hdata,
      splitOnce_append ':' cid.data eid.data h1]
  · have hdata : ("/" ++ dc ++ "/" ++ rest).data = '/' :: (dc.data ++ '/' :: rest.data) := by
      simp [String.data_append]
    simp [containerCreateDcName, goSplit, hdata, splitAll,
      splitAll_append '/' dc.data rest.data h2]

theorem parsing_locations_witness :
    entityFindSplitID ("va-1" ++ ":" ++ "vm-2") = .ok ("va-1", "vm-2") ∧
    containerCreateDcName ("/" ++ "dc1" ++ "/" ++ "host/cluster1/Resources") = .ok "dc1" :=
  parsing_locations "va-1" "vm-2" "dc1" "host/cluster1/Resources" (by decide) (by decide)

/-- C10 counterexample: the `vsphere_vapp_entity` importer is a stub — it
performs no lookup and returns no resource data (`nil, nil`) even when the
resolver would locate a vApp, unlike the container importer which returns the
imported datum with the found reference's value as its ID. -/
theorem entityImport_is_stub :
    resourceVSphereVAppEntityImport (fun _ => .ok sampleVa7) "vapp-path" = .ok [] ∧
    resourceVSphereVAppContainerImport (fun _ => .ok sampleVa7) "vapp-path" = .ok ["va-7"] ∧
    GoResult.ok ([] : List String) ≠ .ok ["va-7"] := by
  decide

/-- C10 amended: both resource types bind all four CRUD handlers plus an
importer; the container importer resolves the supplied path and returns the
resource datum with the found reference's value as its ID, while the entity
importer returns `nil, nil` for every input, performing no import. -/
theorem crud_bindings_and_importers (va : VirtualApp) (id : String)
    (f : String → GoResult VirtualApp) :
    resourceVSphereVAppContainerDefn =
      { create := .containerCreate, read := .containerRead, update := .containerUpdate
        delete := .containerDelete, importer := .containerImport } ∧
    resourceVSphereVAppEntityDefn =
      { create := .entityCreate, read := .entityRead, update := .entityUpdate
        delete := .entityDelete, importer := .entityImport } ∧
    resourceVSphereVAppContainerImport (fun _ => .ok va) id = .ok [va.ref.value] ∧
    resourceVSphereVAppEntityImport f id = .ok [] :=
  ⟨rfl, rfl, rfl, rfl⟩
